import Mathlib

set_option linter.unusedVariables false

/-!
Verification development for the eldlogs rendering engine
(source: src/src/App.tsx).

The embedding models the two rendering pipelines (route map, ELD log
sheet), the shared bounds-fit projection, and the day partitioner.

Modelling conventions:
* JavaScript float64 values that the claims treat algebraically are
  modelled as exact rationals (float rounding is not modelled).
* A rest stop's coordinate field that may be `undefined` or `NaN` is
  modelled as `Option ℚ` (`none` = absent / not-a-number); JS truthiness
  on such a value is `truthyNum` below.
* A `NaN` produced by `parseFloat` on a malformed time string is modelled
  by `Option ℚ` with `none` propagating through the fractional-hour
  arithmetic, and the HTML-canvas rule that path/text operations with a
  non-finite coordinate are silently ignored is modelled by emitting no
  segment for such an entry.
* Host-locale string formatting (`toLocaleTimeString`, `toLocaleDateString`)
  is modelled as the identity on the underlying string; no claim depends
  on the formatted text itself.
-/

namespace EldApp

/-- Geographic coordinate pair (App.tsx `LocationCoordinate`). -/
structure LocationCoordinate where
  lat : ℚ
  lng : ℚ
deriving DecidableEq

/-- `LocationWithAddress` of a rest stop: the `lat`/`lng` fields may be
absent or `NaN` at runtime, modelled as `Option ℚ`. -/
structure LocationWithAddress where
  lat : Option ℚ
  lng : Option ℚ
  address : Option String
deriving DecidableEq

/-- Rest-stop category (App.tsx `RestStop.stop_type`). -/
inductive StopType where
  | brk
  | rest
  | fuel
deriving DecidableEq

/-- A rest stop as consumed by the renderers (App.tsx `RestStop`). -/
structure RestStop where
  id : ℤ
  stop_type : StopType
  location : LocationWithAddress
  scheduled_arrival : String
  duration_hours : ℚ
  distance_from_start_miles : ℚ
  is_mandatory : Bool
  hos_reason : String
deriving DecidableEq

/-- Duty status of a log entry (App.tsx `ELDLog.duty_status`). -/
inductive DutyStatus where
  | on_duty
  | driving
  | off_duty
  | sleeper_berth
deriving DecidableEq

/-- A duty-log entry (App.tsx `ELDLog`). -/
structure ELDLog where
  id : ℤ
  log_date : String
  duty_status : DutyStatus
  start_time : String
  end_time : String
  duration_hours : ℚ
  remarks : String
deriving DecidableEq

/-- The Trip aggregate returned by the backend (App.tsx `TripResponse`),
restricted to the fields the rendering engine reads. -/
structure TripResponse where
  id : ℤ
  status : String
  current_location : LocationCoordinate
  pickup_location : LocationCoordinate
  dropoff_location : LocationCoordinate
  total_distance_miles : ℚ
  estimated_drive_time_hours : ℚ
  route_coordinates : List (ℚ × ℚ)
  rest_stops : List RestStop
  eld_logs : List ELDLog
  requires_multiple_days : Bool
  driver_full_name : String
  driver_license_number : String
deriving DecidableEq

/-! ### Shared utility functions (App.tsx lines 165-195) -/

/-- App.tsx `formatTime`: `new Date('2000-01-01T' + t).toLocaleTimeString(...)`.
The host-locale formatting is modelled as the identity on the time string;
on a malformed string the host returns the string "Invalid Date" without
throwing, so the function is total either way. -/
def formatTime (timeString : String) : String :=
  timeString

/-- App.tsx `formatDate`: host-locale date formatting, modelled as the
identity on the date string. -/
def formatDate (dateString : String) : String :=
  dateString

/-- App.tsx `getDutyStatusColor`: fixed duty-status → color table.  The
source switches on a string with a grey default; the typed embedding only
ever receives the four legal statuses, so the default branch is dead. -/
def getDutyStatusColor : DutyStatus → String
  | .driving => "#ef4444"
  | .on_duty => "#f59e0b"
  | .off_duty => "#10b981"
  | .sleeper_berth => "#3b82f6"

/-! ### Projection utility (App.tsx lines 335-354, inside `MapView`) -/

/-- Map canvas width in pixels (the canvas element's `width={600}`). -/
def mapWidth : ℚ := 600

/-- Map canvas height in pixels (the canvas element's `height={400}`). -/
def mapHeight : ℚ := 400

/-- The fixed projection padding (App.tsx line 347: `const padding = 40`). -/
def padding : ℚ := 40

/-- The bounding box computed by `MapView` over `route_coordinates`. -/
structure Bounds where
  minLat : ℚ
  maxLat : ℚ
  minLng : ℚ
  maxLng : ℚ
deriving DecidableEq

/-- App.tsx lines 338-343: `Math.min(...lats)` etc. over a non-empty
route `p :: ps`, written as folds over the remaining points. -/
def computeBounds (p : ℚ × ℚ) (ps : List (ℚ × ℚ)) : Bounds where
  minLat := (ps.map Prod.fst).foldl min p.1
  maxLat := (ps.map Prod.fst).foldl max p.1
  minLng := (ps.map Prod.snd).foldl min p.2
  maxLng := (ps.map Prod.snd).foldl max p.2

/-- The `|| 1` substitution of App.tsx lines 345-346: a zero range is
replaced by 1 to avoid division by zero. -/
def orOne (q : ℚ) : ℚ :=
  if q = 0 then 1 else q

/-- App.tsx lines 350-354 (`toCanvas`): bounds-fit linear projection from
(lat, lng) to canvas (x, y); the latitude axis is inverted. -/
def toCanvas (b : Bounds) (lat lng : ℚ) : ℚ × ℚ :=
  let latRange := orOne (b.maxLat - b.minLat)
  let lngRange := orOne (b.maxLng - b.minLng)
  (padding + (lng - b.minLng) / lngRange * (mapWidth - 2 * padding),
   padding + (b.maxLat - lat) / latRange * (mapHeight - 2 * padding))

/-! ### Route map renderer (App.tsx lines 312-404, `MapView`) -/

/-- A marker as drawn by App.tsx `drawMarker` (lines 370-390): projected
position, fill color and text label. -/
structure Marker where
  x : ℚ
  y : ℚ
  color : String
  label : String
deriving DecidableEq

/-- The position/color/label triple handed to `drawMarker`: the location is
projected through `toCanvas` (App.tsx line 371). -/
def drawMarker (b : Bounds) (lat lng : ℚ) (color label : String) : Marker :=
  let p := toCanvas b lat lng
  { x := p.1, y := p.2, color := color, label := label }

/-- JS truthiness of a numeric field that may be absent or `NaN`:
`undefined`, `NaN` (both `none`) and `0` are falsy. -/
def truthyNum : Option ℚ → Bool
  | none => false
  | some q => decide (q ≠ 0)

/-- App.tsx lines 398-402: one marker per rest stop, drawn only when
`stop.location.lat && stop.location.lng` is truthy, labelled
`S` followed by the array index plus one. -/
def restStopMarkers (b : Bounds) (stops : List RestStop) : List Marker :=
  stops.enum.filterMap fun e =>
    if truthyNum e.2.location.lat && truthyNum e.2.location.lng then
      some (drawMarker b (e.2.location.lat.getD 0) (e.2.location.lng.getD 0)
        "#8b5cf6" ("S" ++ toString (e.1 + 1)))
    else none

/-- App.tsx lines 392-402: the fixed current/pickup/dropoff markers
followed by the rest-stop markers, all projected with the same bounds. -/
def mapMarkers (t : TripResponse) (b : Bounds) : List Marker :=
  [drawMarker b t.current_location.lat t.current_location.lng "#10b981" "Current",
   drawMarker b t.pickup_location.lat t.pickup_location.lng "#f59e0b" "Pickup",
   drawMarker b t.dropoff_location.lat t.dropoff_location.lng "#ef4444" "Dropoff"]
  ++ restStopMarkers b t.rest_stops

/-- The bounds `MapView` projects with: computed from `route_coordinates`
alone (App.tsx lines 335-343); `none` on the placeholder path. -/
def mapBounds (t : TripResponse) : Option Bounds :=
  match t.route_coordinates with
  | [] => none
  | p :: ps => some (computeBounds p ps)

/-- The full marker list produced by one `MapView` render: empty on the
placeholder path (no trip or empty route), otherwise the fixed and
rest-stop markers. -/
def renderMapMarkers (tripData : Option TripResponse) : List Marker :=
  match tripData with
  | none => []
  | some t =>
    match t.route_coordinates with
    | [] => []
    | p :: ps => mapMarkers t (computeBounds p ps)

/-! ### Time parsing (App.tsx lines 519-520)

The sheet renderer computes
`parseFloat(t.split(':')[0]) + parseFloat(t.split(':')[1]) / 60`.
`parseFloat` is the JS builtin: skip leading whitespace, optional sign,
then the longest decimal-digit/point prefix; `NaN` when nothing parses.
`NaN` is modelled as `none` and propagates through the sum.  (The
exponent form `1e3` accepted by `parseFloat` is not modelled; no
time-of-day string uses it.) -/

/-- Decimal value of a digit character, `none` for a non-digit. -/
def charDigit (c : Char) : Option ℕ :=
  if c = '0' then some 0
  else if c = '1' then some 1
  else if c = '2' then some 2
  else if c = '3' then some 3
  else if c = '4' then some 4
  else if c = '5' then some 5
  else if c = '6' then some 6
  else if c = '7' then some 7
  else if c = '8' then some 8
  else if c = '9' then some 9
  else none

/-- Split a character list into its leading run of decimal digits and the
rest. -/
def spanDigits : List Char → List ℕ × List Char
  | [] => ([], [])
  | c :: cs =>
    match charDigit c with
    | some d =>
      let r := spanDigits cs
      (d :: r.1, r.2)
    | none => ([], c :: cs)

/-- Value of a most-significant-first digit list. -/
def natOfDigits (ds : List ℕ) : ℕ :=
  ds.foldl (fun a d => 10 * a + d) 0

/-- Value of a digit list read as a decimal fraction. -/
def fracOfDigits (ds : List ℕ) : ℚ :=
  (natOfDigits ds : ℚ) / (10 ^ ds.length : ℚ)

/-- Unsigned part of `parseFloat`: digits, optionally a point and more
digits; `none` when no digit occurs on either side of the point. -/
def parseUnsigned (cs : List Char) : Option ℚ :=
  let r := spanDigits cs
  match r.2 with
  | '.' :: rest2 =>
    let f := spanDigits rest2
    if r.1.isEmpty && f.1.isEmpty then none
    else some ((natOfDigits r.1 : ℚ) + fracOfDigits f.1)
  | _ => if r.1.isEmpty then none else some (natOfDigits r.1 : ℚ)

/-- Whitespace characters skipped by `parseFloat`. -/
def isJsSpace (c : Char) : Bool :=
  c = ' ' || c = '\t' || c = '\n' || c = '\r'

/-- JS `parseFloat` on a character list; `none` models `NaN`. -/
def parseFloatChars (cs : List Char) : Option ℚ :=
  match cs.dropWhile isJsSpace with
  | '-' :: rest => (parseUnsigned rest).map Neg.neg
  | '+' :: rest => parseUnsigned rest
  | rest => parseUnsigned rest

/-- JS `parseFloat`, restricted as described above; `none` models `NaN`. -/
def parseFloat (s : String) : Option ℚ :=
  parseFloatChars s.data

/-- Split a character list at every separator character, JS
`String.prototype.split` style (an empty input yields one empty field,
a trailing separator yields a trailing empty field). -/
def splitCharsAux (sep : Char) (cur : List Char) : List Char → List (List Char)
  | [] => [cur.reverse]
  | c :: cs =>
    if c = sep then cur.reverse :: splitCharsAux sep [] cs
    else splitCharsAux sep (c :: cur) cs

/-- App.tsx lines 519-520: a `HH:MM[:SS]` string to fractional hours
`hours + minutes / 60`; `none` when either component fails to parse
(the `NaN` case).  `t.split(':')[i]` is the i-th field of the colon
split, an absent index giving `undefined` and hence `NaN`. -/
def fracHours (time : String) : Option ℚ :=
  let parts := splitCharsAux ':' [] time.data
  match (parts.get? 0).bind parseFloatChars, (parts.get? 1).bind parseFloatChars with
  | some h, some m => some (h + m / 60)
  | _, _ => none

/-! ### Log sheet renderer (App.tsx lines 438-616, `ELDLogSheet`) -/

/-- Sheet canvas width (App.tsx line 452: `canvas.width = 800`). -/
def sheetWidth : ℚ := 800

/-- Sheet canvas height (App.tsx line 453: `canvas.height = 600`). -/
def sheetHeight : ℚ := 600

/-- Top edge of the 24-hour grid (App.tsx line 479). -/
def gridY : ℚ := 110

/-- Height of the 24-hour grid (App.tsx line 480). -/
def gridHeight : ℚ := 300

/-- Width of the 24-hour grid (App.tsx line 481). -/
def gridWidth : ℚ := 700

/-- Left edge of the 24-hour grid (App.tsx line 482: `const startX = 50`). -/
def startX : ℚ := 50

/-- App.tsx lines 522-528: fixed duty-status → grid-row lookup. -/
def statusRow : DutyStatus → ℕ
  | .off_duty => 0
  | .sleeper_berth => 1
  | .driving => 2
  | .on_duty => 3

/-- App.tsx line 442: `const dailyLogs = tripData.eld_logs` — the comment
in the source says "Filter logs for this specific date" but no filtering
by `logDate` occurs. -/
def dailyLogs (tripData : TripResponse) (logDate : String) : List ELDLog :=
  tripData.eld_logs

/-- One drawn duty-status segment (App.tsx lines 518-539): fractional
start/end hours, grid row, stroke color, and the derived pixel
coordinates. -/
structure Segment where
  startHour : ℚ
  endHour : ℚ
  row : ℕ
  color : String
  x1 : ℚ
  x2 : ℚ
  y : ℚ
deriving DecidableEq

/-- The segment an entry contributes, if any.  When either time component
fails to parse the pixel coordinates are `NaN` and the canvas silently
ignores the `moveTo`/`lineTo` (a one-point or empty subpath strokes
nothing), so no segment is drawn: modelled as `none`. -/
def segOf (log : ELDLog) : Option Segment :=
  match fracHours log.start_time, fracHours log.end_time with
  | some sh, some eh =>
    let row := statusRow log.duty_status
    some { startHour := sh
           endHour := eh
           row := row
           color := getDutyStatusColor log.duty_status
           x1 := startX + sh / 24 * gridWidth
           x2 := startX + eh / 24 * gridWidth
           y := gridY + (row : ℚ) * (gridHeight / 4) + gridHeight / 8 }
  | _, _ => none

/-- The four per-status duration totals (App.tsx lines 552-557). -/
structure Totals where
  off_duty : ℚ
  sleeper_berth : ℚ
  driving : ℚ
  on_duty : ℚ
deriving DecidableEq

/-- App.tsx line 560: `totals[log.duty_status] += log.duration_hours`. -/
def addLog (tot : Totals) (log : ELDLog) : Totals :=
  match log.duty_status with
  | .off_duty => { tot with off_duty := tot.off_duty + log.duration_hours }
  | .sleeper_berth => { tot with sleeper_berth := tot.sleeper_berth + log.duration_hours }
  | .driving => { tot with driving := tot.driving + log.duration_hours }
  | .on_duty => { tot with on_duty := tot.on_duty + log.duration_hours }

/-- App.tsx lines 552-561: fold the duration of every processed entry
into the zero-initialised totals. -/
def computeTotals (logs : List ELDLog) : Totals :=
  logs.foldl addLog { off_duty := 0, sleeper_berth := 0, driving := 0, on_duty := 0 }

/-- Projection of a `Totals` record onto one status. -/
def statusTotal (tot : Totals) : DutyStatus → ℚ
  | .off_duty => tot.off_duty
  | .sleeper_berth => tot.sleeper_berth
  | .driving => tot.driving
  | .on_duty => tot.on_duty

/-- App.tsx lines 579-586: the remark lines, walked in input order with a
cursor that starts at `totalsY + 70 = 510`, advances 15 pixels per printed
line, and prints only while `remarkY < canvas.height - 30` and the entry's
remark string is truthy (non-empty). -/
def remarksAux (y : ℚ) : List ELDLog → List String
  | [] => []
  | log :: rest =>
    if log.remarks ≠ "" ∧ y < sheetHeight - 30 then
      (formatTime log.start_time ++ ": " ++ log.remarks) :: remarksAux (y + 15) rest
    else remarksAux y rest

/-- The rendered remarks list for a processed log collection. -/
def remarksOf (logs : List ELDLog) : List String :=
  remarksAux 510 logs

/-- The observable content of one rendered log sheet: header date, drawn
segments, the four totals, and the remark lines. -/
structure Sheet where
  headerDate : String
  segments : List Segment
  totals : Totals
  remarkLines : List String
deriving DecidableEq

/-- One `ELDLogSheet` render for a trip and target date (App.tsx lines
438-598): every section is computed over `dailyLogs`, which is the full
unfiltered `eld_logs` collection. -/
def renderSheet (tripData : TripResponse) (logDate : String) : Sheet where
  headerDate := logDate
  segments := (dailyLogs tripData logDate).filterMap segOf
  totals := computeTotals (dailyLogs tripData logDate)
  remarkLines := remarksOf (dailyLogs tripData logDate)

/-! ### Day partitioner (App.tsx lines 664-668, `getUniqueDates`) -/

/-- `new Set(dates)` iterated into an array: keep the first occurrence of
each date, in encounter order. -/
def jsSetDedup (seen : List String) : List String → List String
  | [] => []
  | d :: ds =>
    if d ∈ seen then jsSetDedup seen ds
    else d :: jsSetDedup (d :: seen) ds

/-- JS `Array.prototype.sort()` with the default comparator on strings:
a sorted permutation under the lexicographic string order (stability is
irrelevant after deduplication), modelled by insertion sort. -/
def jsSort (l : List String) : List String :=
  l.insertionSort (· ≤ ·)

/-- The core list operation of `getUniqueDates`:
`[...new Set(dates)].sort()`. -/
def uniqueSortedDates (dates : List String) : List String :=
  jsSort (jsSetDedup [] dates)

/-- App.tsx lines 664-668 (`getUniqueDates`): the distinct log dates of
the trip's duty logs, sorted ascending; `[]` when no trip data is set. -/
def getUniqueDates (tripData : Option TripResponse) : List String :=
  match tripData with
  | none => []
  | some t => uniqueSortedDates (t.eld_logs.map ELDLog.log_date)

/-- The claim's specification-side expression
`sorted(unique(map(logs, logDate)))`, stated with Mathlib's `dedup` as
`unique`. -/
def specSortedUnique (dates : List String) : List String :=
  jsSort dates.dedup

/-! ### Canvas command model (for the idempotence property)

Each renderer runs inside an effect that issues 2D-canvas drawing calls
against a reused surface.  A surface is modelled as the full history of
commands applied to it; the pixel content after a full-canvas clear is
determined by the commands issued after the last such clear, so two
surfaces with the same post-clear command suffix are pixel-identical
under any deterministic rasterizer. -/

/-- An abstract 2D-canvas drawing command. -/
inductive CanvasCmd where
  | clearRect (x y w h : ℚ)
  | fillRect (x y w h : ℚ) (color : String)
  | strokePath (pts : List (ℚ × ℚ)) (color : String) (lineWidth : ℚ)
  | fillCircle (x y r : ℚ) (color : String)
  | text (s : String) (x y : ℚ) (font color : String)
deriving DecidableEq

/-- Whether a command erases the whole `w × h` surface.  Assigning
`canvas.width`/`canvas.height` also resets the surface and is modelled as
a full `clearRect`. -/
def isFullClear (w h : ℚ) : CanvasCmd → Bool
  | .clearRect a b cw ch => decide (a = 0) && decide (b = 0) && decide (cw = w) && decide (ch = h)
  | _ => false

/-- The commands that determine the pixels of a `w × h` surface: those
issued after the last full-surface clear. -/
def visibleCmds (w h : ℚ) (history : List CanvasCmd) : List CanvasCmd :=
  history.foldl (fun acc c => if isFullClear w h c then [] else acc ++ [c]) []

/-- The three drawing calls of App.tsx `drawMarker` (lines 370-390):
outer colored circle, white inner circle, label text. -/
def markerCmds (m : Marker) : List CanvasCmd :=
  [.fillCircle m.x m.y 8 m.color,
   .fillCircle m.x m.y 4 "white",
   .text m.label m.x (m.y - 15) "bold 12px sans-serif" "#1f2937"]

/-- The command stream of one `MapView` render (App.tsx lines 315-404):
full clear, background fill, then either the placeholder text or the
route polyline followed by all markers. -/
def mapCmds (tripData : Option TripResponse) : List CanvasCmd :=
  [.clearRect 0 0 mapWidth mapHeight,
   .fillRect 0 0 mapWidth mapHeight "#f8fafc"] ++
  match tripData with
  | none =>
    [.text "Calculate trip to see route visualization"
      (mapWidth / 2) (mapHeight / 2) "16px sans-serif" "#64748b"]
  | some t =>
    match t.route_coordinates with
    | [] =>
      [.text "Calculate trip to see route visualization"
        (mapWidth / 2) (mapHeight / 2) "16px sans-serif" "#64748b"]
    | p :: ps =>
      let b := computeBounds p ps
      CanvasCmd.strokePath ((p :: ps).map fun q => toCanvas b q.1 q.2) "#3b82f6" 3
        :: ((mapMarkers t b).map markerCmds).flatten

/-- JS `i.toString().padStart(2, '0')` for the hour labels. -/
def padTwo (i : ℕ) : String :=
  if i < 10 then "0" ++ toString i else toString i

/-- The `statusLabels` array of App.tsx line 501. -/
def statusLabel : ℕ → String
  | 0 => "Off Duty"
  | 1 => "Sleeper Berth"
  | 2 => "Driving"
  | _ => "On Duty (Not Driving)"

/-- JS `Number.prototype.toFixed(1)` on an exact rational: round half
away handled as round-half-up; binary-float rounding artifacts are not
modelled (the string only feeds text commands). -/
def toFixed1 (q : ℚ) : String :=
  let n : ℤ := round (q * 10)
  (if n < 0 then "-" else "") ++ toString (n.natAbs / 10) ++ "." ++ toString (n.natAbs % 10)

/-- The drawing calls one duty-log entry contributes (App.tsx lines
518-549).  With both times parsed: the colored segment, the start-time
label, and the end-time label when the segment is wider than 30 pixels.
With only the start time parsed: the start label is still drawn (its x is
finite) while the segment and end label are ignored by the canvas.  With
an unparseable start time every call has a non-finite coordinate and
nothing is drawn. -/
def segCmdsOfLog (log : ELDLog) : List CanvasCmd :=
  match fracHours log.start_time, fracHours log.end_time with
  | some sh, some eh =>
    let row := statusRow log.duty_status
    let y := gridY + (row : ℚ) * (gridHeight / 4) + gridHeight / 8
    let x1 := startX + sh / 24 * gridWidth
    let x2 := startX + eh / 24 * gridWidth
    [CanvasCmd.strokePath [(x1, y), (x2, y)] (getDutyStatusColor log.duty_status) 3,
     CanvasCmd.text (formatTime log.start_time) x1 (y - 5) "8px Arial" "#000"] ++
    (if 30 < x2 - x1 then
      [CanvasCmd.text (formatTime log.end_time) x2 (y - 5) "8px Arial" "#000"]
    else [])
  | some sh, none =>
    let row := statusRow log.duty_status
    let y := gridY + (row : ℚ) * (gridHeight / 4) + gridHeight / 8
    let x1 := startX + sh / 24 * gridWidth
    [CanvasCmd.text (formatTime log.start_time) x1 (y - 5) "8px Arial" "#000"]
  | none, _ => []

/-- Vertical position of the totals section (App.tsx line 564). -/
def totalsY : ℚ := gridY + gridHeight + 30

/-- The command stream of one `ELDLogSheet` render (App.tsx lines
444-596): surface reset (the `canvas.width = 800` assignment), white
background, header, grid, per-entry segments, totals, remarks, footer. -/
def sheetCmds (tripData : TripResponse) (logDate : String) : List CanvasCmd :=
  let logs := dailyLogs tripData logDate
  let tot := computeTotals logs
  [.clearRect 0 0 sheetWidth sheetHeight,
   .fillRect 0 0 sheetWidth sheetHeight "white",
   .text "ELECTRONIC LOGGING DEVICE (ELD) DAILY LOG" (sheetWidth / 2) 30 "bold 16px Arial" "#000",
   .text ("Driver: " ++ (if tripData.driver_full_name = "" then "N/A" else tripData.driver_full_name))
     50 60 "12px Arial" "#000",
   .text ("License: " ++ tripData.driver_license_number) 300 60 "12px Arial" "#000",
   .text ("Date: " ++ formatDate logDate) 550 60 "12px Arial" "#000",
   .text ("Trip ID: " ++ toString tripData.id) 50 80 "12px Arial" "#000"] ++
  ((List.range 5).map fun i =>
    CanvasCmd.strokePath
      [(startX, gridY + (i : ℚ) * (gridHeight / 4)),
       (startX + gridWidth, gridY + (i : ℚ) * (gridHeight / 4))] "#000" 1) ++
  ((List.range 25).map fun i =>
    CanvasCmd.strokePath
      [(startX + (i : ℚ) * (gridWidth / 24), gridY),
       (startX + (i : ℚ) * (gridWidth / 24), gridY + gridHeight)] "#000" 1) ++
  ((List.range 4).map fun i =>
    CanvasCmd.text (statusLabel i) (startX - 10)
      (gridY + (i : ℚ) * (gridHeight / 4) + gridHeight / 8 + 3) "10px Arial" "#000") ++
  ((List.range 25).map fun i =>
    CanvasCmd.text (padTwo i) (startX + (i : ℚ) * (gridWidth / 24)) (gridY - 5) "8px Arial" "#000") ++
  (logs.map segCmdsOfLog).flatten ++
  [.text "TOTALS:" 50 totalsY "12px Arial" "#000",
   .text ("Off Duty: " ++ toFixed1 tot.off_duty ++ " hrs") 50 (totalsY + 20) "12px Arial" "#000",
   .text ("Sleeper Berth: " ++ toFixed1 tot.sleeper_berth ++ " hrs") 200 (totalsY + 20) "12px Arial" "#000",
   .text ("Driving: " ++ toFixed1 tot.driving ++ " hrs") 350 (totalsY + 20) "12px Arial" "#000",
   .text ("On Duty: " ++ toFixed1 tot.on_duty ++ " hrs") 500 (totalsY + 20) "12px Arial" "#000",
   .text "REMARKS:" 50 (totalsY + 50) "12px Arial" "#000"] ++
  ((remarksOf logs).enum.map fun e =>
    CanvasCmd.text e.2 50 (510 + 15 * (e.1 : ℚ)) "10px Arial" "#000") ++
  [.text "Driver Signature: _________________________" 50 (sheetHeight - 40) "12px Arial" "#000",
   .text ("Date: " ++ formatDate logDate) 400 (sheetHeight - 40) "12px Arial" "#000"]

/-- Rendering the map onto an existing surface appends the render's
command stream to the surface history. -/
def renderMapOnto (surface : List CanvasCmd) (tripData : Option TripResponse) : List CanvasCmd :=
  surface ++ mapCmds tripData

/-- Rendering a log sheet onto an existing surface appends the render's
command stream to the surface history. -/
def renderSheetOnto (surface : List CanvasCmd) (tripData : TripResponse) (logDate : String) :
    List CanvasCmd :=
  surface ++ sheetCmds tripData logDate

/-! ### Concrete fixtures used by witnesses and examples -/

/-- The single duty-log entry of spec Example 2. -/
def log9 : ELDLog where
  id := 1
  log_date := "2024-01-01"
  duty_status := .driving
  start_time := "08:00"
  end_time := "10:30"
  duration_hours := 5 / 2
  remarks := ""

/-- A trip whose duty logs are exactly spec Example 2's entry. -/
def trip9 : TripResponse where
  id := 1
  status := "planned"
  current_location := { lat := 0, lng := 0 }
  pickup_location := { lat := 0, lng := 0 }
  dropoff_location := { lat := 0, lng := 0 }
  total_distance_miles := 0
  estimated_drive_time_hours := 0
  route_coordinates := []
  rest_stops := []
  eld_logs := [log9]
  requires_multiple_days := false
  driver_full_name := "A"
  driver_license_number := "L"

/-- A duty-log entry with a malformed (unparseable) start time. -/
def badLog6 : ELDLog where
  id := 1
  log_date := "2024-01-01"
  duty_status := .driving
  start_time := "garbage"
  end_time := "10:00"
  duration_hours := 1
  remarks := "bad entry"

/-- A well-formed duty-log entry accompanying `badLog6`. -/
def goodLog6 : ELDLog where
  id := 2
  log_date := "2024-01-01"
  duty_status := .off_duty
  start_time := "01:00"
  end_time := "02:00"
  duration_hours := 1
  remarks := ""

/-- A trip whose duty logs contain one malformed and one well-formed
entry. -/
def trip6 : TripResponse where
  id := 6
  status := "planned"
  current_location := { lat := 0, lng := 0 }
  pickup_location := { lat := 0, lng := 0 }
  dropoff_location := { lat := 0, lng := 0 }
  total_distance_miles := 0
  estimated_drive_time_hours := 0
  route_coordinates := []
  rest_stops := []
  eld_logs := [badLog6, goodLog6]
  requires_multiple_days := false
  driver_full_name := "A"
  driver_license_number := "L"

/-- A rest stop whose location is present and finite but has latitude 0. -/
def stop7 : RestStop where
  id := 1
  stop_type := .rest
  location := { lat := some 0, lng := some 5, address := none }
  scheduled_arrival := "2024-01-01T10:00:00Z"
  duration_hours := 1
  distance_from_start_miles := 10
  is_mandatory := true
  hos_reason := "30-minute break"

/-- A trip with a non-empty route whose only rest stop is `stop7`. -/
def trip7 : TripResponse where
  id := 7
  status := "planned"
  current_location := { lat := 0, lng := 0 }
  pickup_location := { lat := 1, lng := 1 }
  dropoff_location := { lat := 1, lng := 0 }
  total_distance_miles := 0
  estimated_drive_time_hours := 0
  route_coordinates := [(0, 0), (1, 1)]
  rest_stops := [stop7]
  eld_logs := []
  requires_multiple_days := false
  driver_full_name := "A"
  driver_license_number := "L"

/-- A trip whose pickup location lies far outside the bounding box of its
route path. -/
def trip10 : TripResponse where
  id := 10
  status := "planned"
  current_location := { lat := 1 / 2, lng := 1 / 2 }
  pickup_location := { lat := 100, lng := 1 / 2 }
  dropoff_location := { lat := 1 / 2, lng := 1 / 2 }
  total_distance_miles := 0
  estimated_drive_time_hours := 0
  route_coordinates := [(0, 0), (1, 1)]
  rest_stops := []
  eld_logs := []
  requires_multiple_days := false
  driver_full_name := "A"
  driver_license_number := "L"

/-! ### Helper lemmas on min/max folds -/

theorem foldl_min_le_init (l : List ℚ) (a : ℚ) : l.foldl min a ≤ a := by
  induction l generalizing a with
  | nil => exact le_refl a
  | cons c cs ih => exact le_trans (ih (min a c)) (min_le_left a c)

theorem init_le_foldl_max (l : List ℚ) (a : ℚ) : a ≤ l.foldl max a := by
  induction l generalizing a with
  | nil => exact le_refl a
  | cons c cs ih => exact le_trans (le_max_left a c) (ih (max a c))

theorem foldl_min_le_mem (l : List ℚ) (a x : ℚ) (hx : x ∈ l) : l.foldl min a ≤ x := by
  induction l generalizing a with
  | nil => cases hx
  | cons c cs ih =>
    rcases List.mem_cons.mp hx with rfl | hx2
    · exact le_trans (foldl_min_le_init cs (min a x)) (min_le_right a x)
    · exact ih (min a c) hx2

theorem mem_le_foldl_max (l : List ℚ) (a x : ℚ) (hx : x ∈ l) : x ≤ l.foldl max a := by
  induction l generalizing a with
  | nil => cases hx
  | cons c cs ih =>
    rcases List.mem_cons.mp hx with rfl | hx2
    · exact le_trans (le_max_right a x) (init_le_foldl_max cs (max a x))
    · exact ih (max a c) hx2

/-! ### Helper lemmas on the projection ratio and totals fold -/

theorem ratio01 (num range : ℚ) (h0 : 0 ≤ num) (h1 : num ≤ range) :
    0 ≤ num / orOne range ∧ num / orOne range ≤ 1 := by
  unfold orOne
  by_cases h : range = 0
  · rw [if_pos h]
    have hz : num = 0 := le_antisymm (h ▸ h1) h0
    rw [hz]
    norm_num
  · rw [if_neg h]
    have hpos : 0 < range := lt_of_le_of_ne (le_trans h0 h1) (Ne.symm h)
    exact ⟨div_nonneg h0 hpos.le, (div_le_one hpos).mpr h1⟩

theorem statusTotal_zero (s : DutyStatus) :
    statusTotal { off_duty := 0, sleeper_berth := 0, driving := 0, on_duty := 0 } s = 0 := by
  cases s <;> rfl

theorem statusTotal_addLog (tot : Totals) (log : ELDLog) (s : DutyStatus) :
    statusTotal (addLog tot log) s
      = statusTotal tot s + (if log.duty_status = s then log.duration_hours else 0) := by
  cases hls : log.duty_status <;> cases s <;> simp [addLog, hls, statusTotal]

theorem statusTotal_foldl (logs : List ELDLog) (tot : Totals) (s : DutyStatus) :
    statusTotal (logs.foldl addLog tot) s
      = statusTotal tot s
        + ((logs.filter fun l => decide (l.duty_status = s)).map ELDLog.duration_hours).sum := by
  induction logs generalizing tot with
  | nil => simp
  | cons l ls ih =>
    rw [List.foldl_cons, ih, statusTotal_addLog]
    by_cases h : l.duty_status = s
    · simp [List.filter_cons, h]
      try ring
    · simp [List.filter_cons, h]
      try ring

/-! ### Helper lemmas on the set-based deduplication -/

theorem mem_jsSetDedup (x : String) (l : List String) :
    ∀ seen, x ∈ jsSetDedup seen l ↔ x ∈ l ∧ x ∉ seen := by
  induction l with
  | nil => intro seen; simp [jsSetDedup]
  | cons d ds ih =>
    intro seen
    by_cases h : d ∈ seen
    · rw [jsSetDedup, if_pos h, ih]
      constructor
      · exact fun hx => ⟨List.mem_cons_of_mem d hx.1, hx.2⟩
      · rintro ⟨hxor, hs⟩
        rcases List.mem_cons.mp hxor with rfl | hx2
        · exact absurd h hs
        · exact ⟨hx2, hs⟩
    · rw [jsSetDedup, if_neg h]
      simp only [List.mem_cons, ih, List.mem_cons]
      constructor
      · rintro (rfl | ⟨hx, hs⟩)
        · exact ⟨Or.inl rfl, h⟩
        · exact ⟨Or.inr hx, fun hseen => hs (Or.inr hseen)⟩
      · rintro ⟨rfl | hx, hs⟩
        · exact Or.inl rfl
        · by_cases hxd : x = d
          · exact Or.inl hxd
          · exact Or.inr ⟨hx, fun hor => hor.elim hxd hs⟩

theorem nodup_jsSetDedup (l : List String) : ∀ seen, (jsSetDedup seen l).Nodup := by
  induction l with
  | nil => intro seen; simp [jsSetDedup]
  | cons d ds ih =>
    intro seen
    by_cases h : d ∈ seen
    · rw [jsSetDedup, if_pos h]
      exact ih seen
    · rw [jsSetDedup, if_neg h]
      refine List.nodup_cons.mpr ⟨fun hmem => ?_, ih (d :: seen)⟩
      exact ((mem_jsSetDedup d ds (d :: seen)).mp hmem).2 (List.mem_cons_self d seen)

theorem jsSetDedup_eq_self (l : List String) :
    ∀ seen, l.Nodup → (∀ x ∈ l, x ∉ seen) → jsSetDedup seen l = l := by
  induction l with
  | nil => intro seen _ _; rfl
  | cons d ds ih =>
    intro seen hnd hall
    rw [jsSetDedup, if_neg (hall d (List.mem_cons_self d ds))]
    congr 1
    refine ih (d :: seen) (List.nodup_cons.mp hnd).2 fun x hx hmem => ?_
    rcases List.mem_cons.mp hmem with rfl | h2
    · exact (List.nodup_cons.mp hnd).1 hx
    · exact hall x (List.mem_cons_of_mem d hx) h2

theorem perm_jsSetDedup_dedup (l : List String) : (jsSetDedup [] l).Perm l.dedup := by
  refine (List.perm_ext_iff_of_nodup (nodup_jsSetDedup l []) (List.nodup_dedup l)).mpr fun a => ?_
  rw [mem_jsSetDedup, List.mem_dedup]
  simp

/-! ### Helper lemmas on markers and the command-history surface -/

theorem filterMap_if_map {α β : Type} (p2 : α → Bool) (f : α → β) (l : List α) :
    (l.filterMap fun a => if p2 a then some (f a) else none) = (l.filter p2).map f := by
  induction l with
  | nil => rfl
  | cons a as ih =>
    by_cases h : p2 a
    · simp [List.filterMap_cons, List.filter_cons, h, ih]
    · simp [List.filterMap_cons, List.filter_cons, h, ih]

theorem restStopMarkers_eq (b : Bounds) (stops : List RestStop) :
    restStopMarkers b stops
      = ((stops.enum.filter fun e =>
            truthyNum e.2.location.lat && truthyNum e.2.location.lng).map
          fun e => drawMarker b (e.2.location.lat.getD 0) (e.2.location.lng.getD 0)
            "#8b5cf6" ("S" ++ toString (e.1 + 1))) :=
  filterMap_if_map _ _ stops.enum

theorem restStopMarkers_color (b : Bounds) (stops : List RestStop) :
    ∀ m ∈ restStopMarkers b stops, m.color = "#8b5cf6" := by
  intro m hm
  rw [restStopMarkers_eq] at hm
  obtain ⟨e, _, hsome⟩ := List.mem_map.mp hm
  rw [← hsome]
  rfl

theorem visibleCmds_append_fullclear (w h : ℚ) (s : List CanvasCmd) (c : CanvasCmd)
    (rest : List CanvasCmd) (hc : isFullClear w h c = true) :
    visibleCmds w h (s ++ (c :: rest)) = visibleCmds w h (c :: rest) := by
  rw [visibleCmds, visibleCmds, List.foldl_append]
  simp [List.foldl_cons, hc]

/-! ### Claim theorems -/

/-- C1: the Log Sheet Renderer does not filter the duty-log collection by
the target logDate; for every trip and every target date the entries whose
segments, totals contributions and remark lines are processed are exactly
the full `eld_logs` collection, and the drawn content is independent of
the target date. -/
theorem c1_sheet_processes_full_log_collection (t : TripResponse) (d d2 : String) :
    dailyLogs t d = t.eld_logs ∧
    (renderSheet t d).segments = t.eld_logs.filterMap segOf ∧
    (renderSheet t d).totals = computeTotals t.eld_logs ∧
    (renderSheet t d).remarkLines = remarksOf t.eld_logs ∧
    (renderSheet t d).segments = (renderSheet t d2).segments ∧
    (renderSheet t d).totals = (renderSheet t d2).totals ∧
    (renderSheet t d).remarkLines = (renderSheet t d2).remarkLines :=
  ⟨rfl, rfl, rfl, rfl, rfl, rfl, rfl⟩

/-- C2: for every non-empty point sequence `p :: ps` with computed bounds,
the projection maps `(lat, lng)` to
`x = P + (lng - minLng) / lngRange * (W - 2P)` and
`y = P + (maxLat - lat) / latRange * (H - 2P)`, where each range is the
bound difference with 1 substituted when it is zero. -/
theorem c2_projection_formula (p : ℚ × ℚ) (ps : List (ℚ × ℚ)) (lat lng : ℚ) :
    toCanvas (computeBounds p ps) lat lng =
      (padding + (lng - (computeBounds p ps).minLng) /
          (if (computeBounds p ps).maxLng - (computeBounds p ps).minLng = 0 then 1
           else (computeBounds p ps).maxLng - (computeBounds p ps).minLng) *
          (mapWidth - 2 * padding),
       padding + ((computeBounds p ps).maxLat - lat) /
          (if (computeBounds p ps).maxLat - (computeBounds p ps).minLat = 0 then 1
           else (computeBounds p ps).maxLat - (computeBounds p ps).minLat) *
          (mapHeight - 2 * padding)) := by
  simp only [toCanvas, orOne]

/-- C3: for every non-empty point set `p :: ps` and every point within
the computed bounds, the projected output lies within
`[0, W] × [0, H]`. -/
theorem c3_projection_within_surface (p : ℚ × ℚ) (ps : List (ℚ × ℚ)) (lat lng : ℚ)
    (h1 : (computeBounds p ps).minLat ≤ lat) (h2 : lat ≤ (computeBounds p ps).maxLat)
    (h3 : (computeBounds p ps).minLng ≤ lng) (h4 : lng ≤ (computeBounds p ps).maxLng) :
    0 ≤ (toCanvas (computeBounds p ps) lat lng).1 ∧
    (toCanvas (computeBounds p ps) lat lng).1 ≤ mapWidth ∧
    0 ≤ (toCanvas (computeBounds p ps) lat lng).2 ∧
    (toCanvas (computeBounds p ps) lat lng).2 ≤ mapHeight := by
  set b := computeBounds p ps with hb
  obtain ⟨hx0, hx1⟩ := ratio01 (lng - b.minLng) (b.maxLng - b.minLng)
    (by linarith) (by linarith)
  obtain ⟨hy0, hy1⟩ := ratio01 (b.maxLat - lat) (b.maxLat - b.minLat)
    (by linarith) (by linarith)
  simp only [toCanvas, padding, mapWidth, mapHeight]
  refine ⟨by nlinarith, by nlinarith, by nlinarith, by nlinarith⟩

/-- Witness for C3 at the concrete route `[(0,0), (2,3)]` and the interior
point `(1, 1)`. -/
theorem c3_projection_within_surface_witness :
    0 ≤ (toCanvas (computeBounds (0, 0) [(2, 3)]) 1 1).1 ∧
    (toCanvas (computeBounds (0, 0) [(2, 3)]) 1 1).1 ≤ mapWidth ∧
    0 ≤ (toCanvas (computeBounds (0, 0) [(2, 3)]) 1 1).2 ∧
    (toCanvas (computeBounds (0, 0) [(2, 3)]) 1 1).2 ≤ mapHeight :=
  c3_projection_within_surface (0, 0) [(2, 3)] 1 1
    (by norm_num [computeBounds]) (by norm_num [computeBounds])
    (by norm_num [computeBounds]) (by norm_num [computeBounds])

/-- C4: the Day Partitioner returns exactly the sorted, duplicate-free
sequence of the entries' logDate values in ascending lexicographic order
(`sorted(unique(map(logs, logDate)))`), returns the empty sequence for an
absent input, and is idempotent on date lists. -/
theorem c4_day_partitioner (t : TripResponse) (dates : List String) :
    getUniqueDates none = [] ∧
    uniqueSortedDates [] = [] ∧
    getUniqueDates (some t) = uniqueSortedDates (t.eld_logs.map ELDLog.log_date) ∧
    uniqueSortedDates dates = specSortedUnique dates ∧
    List.Sorted (· ≤ ·) (uniqueSortedDates dates) ∧
    (uniqueSortedDates dates).Nodup ∧
    (∀ d2, d2 ∈ uniqueSortedDates dates ↔ d2 ∈ dates) ∧
    uniqueSortedDates (uniqueSortedDates dates) = uniqueSortedDates dates := by
  have hsorted : List.Sorted (· ≤ ·) (uniqueSortedDates dates) :=
    List.sorted_insertionSort _ _
  have hnd : (uniqueSortedDates dates).Nodup :=
    (List.perm_insertionSort _ _).nodup_iff.mpr (nodup_jsSetDedup _ [])
  refine ⟨rfl, rfl, rfl, ?_, hsorted, hnd, ?_, ?_⟩
  · refine List.eq_of_perm_of_sorted ?_ (List.sorted_insertionSort _ _)
      (List.sorted_insertionSort _ _)
    exact (List.perm_insertionSort _ _).trans
      ((perm_jsSetDedup_dedup dates).trans (List.perm_insertionSort _ _).symm)
  · intro d2
    rw [show uniqueSortedDates dates = (jsSetDedup [] dates).insertionSort (· ≤ ·) from rfl,
      (List.perm_insertionSort _ _).mem_iff, mem_jsSetDedup]
    simp
  · show jsSort (jsSetDedup [] (uniqueSortedDates dates)) = uniqueSortedDates dates
    rw [jsSetDedup_eq_self _ [] hnd fun x _ => List.not_mem_nil x]
    exact List.Sorted.insertionSort_eq hsorted

/-- C5: for every processed entry set, the rendered total of each duty
status is the sum of the `duration_hours` fields of the entries having
that status (taken from the stored field, not recomputed from the
start/end times), and every total of an empty entry set is 0. -/
theorem c5_totals_sum_duration_hours (t : TripResponse) (d : String)
    (logs : List ELDLog) (s : DutyStatus) :
    statusTotal (renderSheet t d).totals s
      = (((dailyLogs t d).filter fun l => decide (l.duty_status = s)).map
          ELDLog.duration_hours).sum ∧
    statusTotal (computeTotals logs) s
      = ((logs.filter fun l => decide (l.duty_status = s)).map ELDLog.duration_hours).sum ∧
    computeTotals [] = { off_duty := 0, sleeper_berth := 0, driving := 0, on_duty := 0 } := by
  refine ⟨?_, ?_, rfl⟩
  · show statusTotal (computeTotals (dailyLogs t d)) s = _
    rw [computeTotals, statusTotal_foldl, statusTotal_zero, zero_add]
  · rw [computeTotals, statusTotal_foldl, statusTotal_zero, zero_add]

/-- C9: spec Example 2 — the single driving entry 08:00-10:30 with
duration 2.5 yields exactly one red segment from fractional hour 8.0 to
10.5 in row index 2 (rows assigned off_duty=0, sleeper_berth=1,
driving=2, on_duty=3), the Driving total is 2.5 and the other three
totals are 0. -/
theorem c9_example_single_driving_entry :
    ((renderSheet trip9 "2024-01-01").segments.map
        fun s => (s.startHour, s.endHour, s.row, s.color)) = [(8, 21 / 2, 2, "#ef4444")] ∧
    (renderSheet trip9 "2024-01-01").totals =
      { off_duty := 0, sleeper_berth := 0, driving := 5 / 2, on_duty := 0 } ∧
    statusRow .off_duty = 0 ∧ statusRow .sleeper_berth = 1 ∧
    statusRow .driving = 2 ∧ statusRow .on_duty = 3 := by
  norm_num +decide [renderSheet, dailyLogs, trip9, log9, segOf, statusRow, getDutyStatusColor,
    computeTotals, addLog, List.filterMap_cons, fracHours, splitCharsAux, parseFloatChars,
    parseUnsigned, spanDigits, charDigit, natOfDigits, fracOfDigits, isJsSpace, List.dropWhile]

/-- C6: a duty-log collection containing an entry with a malformed start
or end time does not crash the Log Sheet Renderer: the malformed entry
contributes no segment, every other entry's segment is still drawn, and
the totals and remarks sections are still computed over all entries. -/
theorem c6_malformed_time_skips_segment (t : TripResponse) (d : String) (log : ELDLog)
    (hmem : log ∈ t.eld_logs)
    (hbad : fracHours log.start_time = none ∨ fracHours log.end_time = none) :
    segOf log = none ∧
    (renderSheet t d).segments = t.eld_logs.filterMap segOf ∧
    (∀ l2 ∈ t.eld_logs, ∀ seg, segOf l2 = some seg → seg ∈ (renderSheet t d).segments) ∧
    (renderSheet t d).totals = computeTotals t.eld_logs ∧
    (renderSheet t d).remarkLines = remarksOf t.eld_logs := by
  refine ⟨?_, rfl, ?_, rfl, rfl⟩
  · rcases hbad with h | h
    · simp [segOf, h]
    · cases hs : fracHours log.start_time <;> simp [segOf, hs, h]
  · intro l2 h2 seg hseg
    show seg ∈ (dailyLogs t d).filterMap segOf
    exact List.mem_filterMap.mpr ⟨l2, h2, hseg⟩

/-- Witness for C6 at the concrete trip `trip6`, whose first entry has
the unparseable start time "garbage". -/
theorem c6_malformed_time_skips_segment_witness :
    badLog6 ∈ trip6.eld_logs ∧
    fracHours badLog6.start_time = none ∧
    segOf badLog6 = none ∧
    (renderSheet trip6 "2024-01-01").segments = trip6.eld_logs.filterMap segOf := by
  have hmem : badLog6 ∈ trip6.eld_logs := List.mem_cons_self _ _
  have hbad : fracHours badLog6.start_time = none := by
    norm_num +decide [badLog6, fracHours, splitCharsAux, parseFloatChars, parseUnsigned,
      spanDigits, charDigit, isJsSpace, List.dropWhile]
  obtain ⟨h1, h2, -, -, -⟩ :=
    c6_malformed_time_skips_segment trip6 "2024-01-01" badLog6 hmem (Or.inl hbad)
  exact ⟨hmem, hbad, h1, h2⟩

/-- C7 counterexample: `stop7` has a present, finite location
(latitude 0, longitude 5), yet `MapView` draws no rest-stop marker for
`trip7`, because the source gates the marker on JS truthiness
(`stop.location.lat && stop.location.lng`) and 0 is falsy. -/
theorem c7_counterexample_zero_latitude_skipped :
    trip7.rest_stops = [stop7] ∧
    stop7.location.lat = some 0 ∧
    stop7.location.lng = some 5 ∧
    ((renderMapMarkers (some trip7)).filter fun m => decide (m.color = "#8b5cf6")) = [] := by
  refine ⟨rfl, rfl, rfl, ?_⟩
  simp +decide [renderMapMarkers, trip7, mapMarkers, restStopMarkers, drawMarker,
    truthyNum, stop7, List.filter]

/-- C7 amended: with a non-empty route, the rest-stop markers are exactly
one marker per rest stop whose latitude and longitude are both truthy
(present, finite and non-zero) — a stop with a missing, non-finite, or
zero coordinate is skipped — and each drawn marker's label is `S`
followed by the stop's array index plus one. -/
theorem c7_rest_stop_markers_truthiness (t : TripResponse) (p : ℚ × ℚ) (ps : List (ℚ × ℚ))
    (hroute : t.route_coordinates = p :: ps) :
    ((renderMapMarkers (some t)).filter fun m => decide (m.color = "#8b5cf6"))
        = restStopMarkers (computeBounds p ps) t.rest_stops ∧
    (((renderMapMarkers (some t)).filter fun m => decide (m.color = "#8b5cf6")).map
        Marker.label)
        = ((t.rest_stops.enum.filter fun e =>
            truthyNum e.2.location.lat && truthyNum e.2.location.lng).map
            fun e => "S" ++ toString (e.1 + 1)) := by
  have hfil : ((renderMapMarkers (some t)).filter fun m => decide (m.color = "#8b5cf6"))
      = restStopMarkers (computeBounds p ps) t.rest_stops := by
    have hrest2 : (restStopMarkers (computeBounds p ps) t.rest_stops).filter
        (fun m => decide (m.color = "#8b5cf6"))
        = restStopMarkers (computeBounds p ps) t.rest_stops :=
      List.filter_eq_self.mpr fun m hm => by
        rw [restStopMarkers_color _ _ m hm]
        exact decide_eq_true rfl
    rw [show renderMapMarkers (some t)
        = (match t.route_coordinates with
           | [] => []
           | p2 :: ps2 => mapMarkers t (computeBounds p2 ps2)) from rfl, hroute]
    simp only [mapMarkers]
    rw [List.filter_append, hrest2]
    simp +decide [drawMarker]
  refine ⟨hfil, ?_⟩
  rw [hfil, restStopMarkers_eq, List.map_map]
  rfl

/-- Witness for the amended C7 at `trip7`: its single rest stop has a
falsy (zero) latitude, so the drawn rest-stop label list is empty. -/
theorem c7_rest_stop_markers_truthiness_witness :
    (((renderMapMarkers (some trip7)).filter fun m => decide (m.color = "#8b5cf6")).map
        Marker.label)
        = ((trip7.rest_stops.enum.filter fun e =>
            truthyNum e.2.location.lat && truthyNum e.2.location.lng).map
            fun e => "S" ++ toString (e.1 + 1)) :=
  (c7_rest_stop_markers_truthiness trip7 (0, 0) [(1, 1)] rfl).2

/-- C8: both renderers are idempotent over re-invocation on the same
surface: each render's command stream begins with a full-surface clear
and is a pure function of its input, so the visible (post-clear) content
after rendering twice equals the content after rendering once. -/
theorem c8_renderers_idempotent (s1 s2 : List CanvasCmd) (tripData : Option TripResponse)
    (t : TripResponse) (d : String) :
    visibleCmds mapWidth mapHeight (renderMapOnto (renderMapOnto s1 tripData) tripData)
      = visibleCmds mapWidth mapHeight (renderMapOnto s1 tripData) ∧
    visibleCmds sheetWidth sheetHeight (renderSheetOnto (renderSheetOnto s2 t d) t d)
      = visibleCmds sheetWidth sheetHeight (renderSheetOnto s2 t d) := by
  constructor
  · obtain ⟨rest, hrest⟩ :
        ∃ rest, mapCmds tripData = CanvasCmd.clearRect 0 0 mapWidth mapHeight :: rest :=
      ⟨_, rfl⟩
    have key : ∀ X, visibleCmds mapWidth mapHeight (X ++ mapCmds tripData)
        = visibleCmds mapWidth mapHeight (mapCmds tripData) := by
      intro X
      rw [hrest]
      exact visibleCmds_append_fullclear _ _ X _ rest (by simp [isFullClear])
    show visibleCmds mapWidth mapHeight ((s1 ++ mapCmds tripData) ++ mapCmds tripData)
      = visibleCmds mapWidth mapHeight (s1 ++ mapCmds tripData)
    rw [key, key]
  · obtain ⟨rest, hrest⟩ :
        ∃ rest, sheetCmds t d = CanvasCmd.clearRect 0 0 sheetWidth sheetHeight :: rest :=
      ⟨_, rfl⟩
    have key : ∀ X, visibleCmds sheetWidth sheetHeight (X ++ sheetCmds t d)
        = visibleCmds sheetWidth sheetHeight (sheetCmds t d) := by
      intro X
      rw [hrest]
      exact visibleCmds_append_fullclear _ _ X _ rest (by simp [isFullClear])
    show visibleCmds sheetWidth sheetHeight ((s2 ++ sheetCmds t d) ++ sheetCmds t d)
      = visibleCmds sheetWidth sheetHeight (s2 ++ sheetCmds t d)
    rw [key, key]

/-- C10: `MapView` computes its projection bounding box from the route
path alone — two trips with equal `route_coordinates` get equal bounds —
and consequently a trip whose pickup location lies outside the route's
bounding box (`trip10`) gets a marker drawn outside the
`[0, W] × [0, H]` surface. -/
theorem c10_bounds_from_route_only (t1 t2 : TripResponse)
    (hroutes : t1.route_coordinates = t2.route_coordinates) :
    mapBounds t1 = mapBounds t2 ∧
    ∃ m ∈ renderMapMarkers (some trip10),
      m.x < 0 ∨ mapWidth < m.x ∨ m.y < 0 ∨ mapHeight < m.y := by
  constructor
  · rw [mapBounds, mapBounds, hroutes]
  · refine ⟨drawMarker (computeBounds (0, 0) [(1, 1)]) trip10.pickup_location.lat
      trip10.pickup_location.lng "#f59e0b" "Pickup", ?_, ?_⟩
    · show _ ∈ mapMarkers trip10 (computeBounds (0, 0) [(1, 1)])
      simp only [mapMarkers]
      exact List.mem_append_left _ (List.mem_cons_of_mem _ (List.mem_cons_self _ _))
    · right; right; left
      show (toCanvas (computeBounds (0, 0) [(1, 1)]) 100 (1 / 2)).2 < 0
      norm_num [toCanvas, computeBounds, orOne, padding, mapHeight, mapWidth]

/-- Witness for C10, instantiating the bounds conjunct at `trip10`
against itself. -/
theorem c10_bounds_from_route_only_witness :
    mapBounds trip10 = mapBounds trip10 ∧
    ∃ m ∈ renderMapMarkers (some trip10),
      m.x < 0 ∨ mapWidth < m.x ∨ m.y < 0 ∨ mapHeight < m.y :=
  c10_bounds_from_route_only trip10 trip10 rfl

end EldApp
